import Mathlib

/-!
Verification development for the tmoq escrow settlement core.

The definitions below are a shallow embedding of the TypeScript services in
`src/services` (BalanceService in `balance.service.ts`, DealService and
TransferService in `deal.service.ts`, StepService in `step.service.ts`) and of
the older DealService revision found in the repository (modelled here as
`LegacyDealService`).

Modelling conventions:
- TypeORM repositories are modelled as lists held in an explicit state record;
  `findOne` becomes `List.find?`, `find` with a where-clause becomes
  `List.filter`, and `repository.update(criteria, patch)` becomes a `List.map`
  that patches every matching row.  Relation hydration is treated as an
  external persistence concern: an aggregate's related rows are looked up in
  the state, so `deal.steps` and `step.deponents` are always the rows that
  reference the owner.
- A service method that throws is an `Except String`; the thrown message is the
  source's message string.  A method that mutates and then throws inside a
  try/catch returns the partially mutated state explicitly (see
  `TransferService.executeTransfer`).
- JavaScript numbers are modelled as `Int` (all amounts in the claims are
  integral); `Number(x)` on an already numeric value is the identity.
- JavaScript truthiness guards on optional fields (`if (data.amount && ...)`)
  are modelled on `Option` values: `none` and the falsy values `0` / `""` fail
  the guard.  This preserves the source's behaviour of skipping validation for
  absent, zero, or empty values.
- `new Date()` timestamps are modelled by threading an abstract clock value
  `now : Nat`.
- Generated primary keys are modelled by deterministic fresh ids (list length);
  no claim depends on key values.
- Database-generated columns not used by any claim (`createdAt`, `updatedAt`
  on deals, descriptions of rows) are omitted from the records.
-/

namespace Tmoq

/-- Deal lifecycle statuses (enum `DealStatus` of `src/enums/deal`, as used by
the services: DRAFT, CONFIRMED, ACCEPTED, COMPLETED, CANCELLED,
PAYMENT_FAILED). -/
inductive DealStatus where
  | DRAFT
  | CONFIRMED
  | ACCEPTED
  | COMPLETED
  | CANCELLED
  | PAYMENT_FAILED
deriving DecidableEq, Repr

/-- Step statuses (enum `StepStatus` of `src/enums/deal`; the members are the
ones referenced across the services). -/
inductive StepStatus where
  | NEW
  | ACTIVE
  | COMPLETED
  | CANCELLED
  | DRAFT
  | IN_PROGRESS
  | PENDING
deriving DecidableEq, Repr

/-- Payment/transfer statuses (enum `PaymentStatus` of `src/enums/payment`). -/
inductive PaymentStatus where
  | PENDING
  | PROCESSING
  | COMPLETED
  | FAILED
  | CANCELLED
deriving DecidableEq, Repr

/-- JavaScript truthiness of an optional number: `undefined` and `0` are
falsy. -/
def truthyInt : Option Int → Bool
  | none => false
  | some a => a != 0

/-- JavaScript truthiness of an optional string: `undefined` and `""` are
falsy. -/
def truthyStr : Option String → Bool
  | none => false
  | some c => c != ""

/-- `Balance` entity (`src/entity/balance/balance.ts`): one record per
beneficiary account holding the raw total `amount`. -/
structure Balance where
  balanceId : Nat
  beneficiaryId : Int
  amount : Int
  currency : String
deriving DecidableEq, Repr

/-- `Hold` entity (`src/entity/balance/hold.ts`): a reservation against a
balance; `status` is the raw string column used by the service
("ACTIVE" / "RELEASED" / "EXECUTED"). -/
structure Hold where
  holdId : Nat
  beneficiaryId : Int
  amount : Int
  currency : String
  reason : String
  status : String
  createdAt : Nat
deriving DecidableEq, Repr

/-- The ledger-side store: balance rows, hold rows, and the beneficiary
repository (by id). -/
structure LedgerState where
  balances : List Balance
  holds : List Hold
  beneficiaries : List Int
deriving DecidableEq, Repr

namespace BalanceService

/-- `getBalanceByBeneficiary`: `findOne` on the balance repository by
beneficiary id. -/
def getBalanceByBeneficiary (s : LedgerState) (beneficiaryId : Int) : Option Balance :=
  s.balances.find? (fun b => b.beneficiaryId == beneficiaryId)

/-- `repository.update({ balanceId }, { amount })`: patch the amount of every
balance row with the given id. -/
def updateBalanceAmount (s : LedgerState) (balanceId : Nat) (newAmount : Int) : LedgerState :=
  { s with balances :=
      s.balances.map (fun b => if b.balanceId = balanceId then { b with amount := newAmount } else b) }

/-- Input of `createBalance` (a `Partial<Balance>`). -/
structure BalanceData where
  beneficiaryId : Option Int := none
  amount : Option Int := none
  currency : Option String := none
deriving Repr

/-- `validateBalanceData`: rejects a truthy negative amount and a truthy
currency whose length is not 3 (the `data.beneficiaryId.length` clause can
never fire for a numeric id and is omitted). -/
def validateBalanceData (d : BalanceData) : Except String Unit :=
  if truthyInt d.amount ∧ d.amount.getD 0 < 0 then
    .error "Balance amount cannot be negative"
  else if truthyStr d.currency ∧ (d.currency.getD "").length ≠ 3 then
    .error "Currency code must be 3 characters long"
  else
    .ok ()

/-- `createBalance`: validate, check the beneficiary exists when provided,
then save a new balance row with `amount := data.amount || 0`. -/
def createBalance (s : LedgerState) (d : BalanceData) : Except String (Balance × LedgerState) :=
  match validateBalanceData d with
  | .error e => .error e
  | .ok () =>
    if truthyInt d.beneficiaryId ∧ ¬ s.beneficiaries.contains (d.beneficiaryId.getD 0) then
      .error "Beneficiary not found"
    else
      let b : Balance :=
        { balanceId := s.balances.length
          beneficiaryId := d.beneficiaryId.getD 0
          amount := d.amount.getD 0
          currency := d.currency.getD "" }
      .ok (b, { s with balances := s.balances ++ [b] })

/-- `addFunds(beneficiaryId, amount, currency)`: create the balance when
absent, else increment its amount. -/
def addFunds (s : LedgerState) (beneficiaryId : Int) (amount : Int) (currency : String) :
    Except String LedgerState :=
  match getBalanceByBeneficiary s beneficiaryId with
  | none =>
      (createBalance s
        { beneficiaryId := some beneficiaryId, amount := some amount, currency := some currency }).map
        (fun p => p.2)
  | some b => .ok (updateBalanceAmount s b.balanceId (b.amount + amount))

/-- `withdrawFunds(beneficiaryId, amount, currency)`: throws when no balance
exists or when `balance.amount < amount` (the raw total — holds are never
consulted), else decrements the amount.  The currency parameter of the source
is unused by its logic. -/
def withdrawFunds (s : LedgerState) (beneficiaryId : Int) (amount : Int) (_currency : String) :
    Except String LedgerState :=
  match getBalanceByBeneficiary s beneficiaryId with
  | none => .error "Balance not found for beneficiary"
  | some b =>
      if b.amount < amount then .error "Insufficient funds"
      else .ok (updateBalanceAmount s b.balanceId (b.amount - amount))

/-- `createHold(beneficiaryId, amount, currency, reason)`: throws when no
balance exists or when `balance.amount < amount`; otherwise saves a new hold
with status "ACTIVE".  The balance row itself is never modified. -/
def createHold (s : LedgerState) (beneficiaryId : Int) (amount : Int) (currency : String)
    (reason : String) (now : Nat) : Except String (Hold × LedgerState) :=
  match getBalanceByBeneficiary s beneficiaryId with
  | none => .error "Balance not found for beneficiary"
  | some b =>
      if b.amount < amount then .error "Insufficient funds for hold"
      else
        let h : Hold :=
          { holdId := s.holds.length
            beneficiaryId := beneficiaryId
            amount := amount
            currency := currency
            reason := reason
            status := "ACTIVE"
            createdAt := now }
        .ok (h, { s with holds := s.holds ++ [h] })

end BalanceService

/-- `Transfer` entity (`src/entity/transfer/transfer.ts` as used by
`TransferService`): point-to-point money movement between two beneficiaries. -/
structure Transfer where
  transferId : Nat
  fromBeneficiaryId : Option Int
  toBeneficiaryId : Option Int
  amount : Int
  currency : String
  description : Option String
  status : PaymentStatus
  failureReason : Option String
  executedAt : Option Nat
  failedAt : Option Nat
  cancelledAt : Option Nat
deriving DecidableEq, Repr

/-- The transfer-side store: the transfer repository plus the ledger it debits
and credits through `BalanceService`. -/
structure TransferState where
  transfers : List Transfer
  ledger : LedgerState
deriving DecidableEq, Repr

namespace TransferService

/-- `findById`: `findOne` on the transfer repository by id. -/
def findById (s : TransferState) (id : Nat) : Option Transfer :=
  s.transfers.find? (fun t => t.transferId == id)

/-- `repository.update({ transferId: id }, patch)`: patch every matching
transfer row. -/
def updateTransfer (s : TransferState) (id : Nat) (f : Transfer → Transfer) : TransferState :=
  { s with transfers := s.transfers.map (fun t => if t.transferId = id then f t else t) }

/-- Input of `createTransfer` (a `Partial<Transfer>`). -/
structure TransferData where
  fromBeneficiaryId : Option Int := none
  toBeneficiaryId : Option Int := none
  amount : Option Int := none
  currency : Option String := none
  description : Option String := none
deriving Repr

/-- `validateTransferData`: each guard is applied only to a truthy field, so an
absent or zero amount, an absent or empty currency, and an absent or zero
beneficiary id all skip their checks; the final strict-equality comparison of
the two (possibly absent) beneficiary ids is unconditional. -/
def validateTransferData (d : TransferData) : Except String Unit :=
  if truthyInt d.amount ∧ d.amount.getD 0 ≤ 0 then
    .error "Transfer amount must be greater than zero"
  else if truthyStr d.currency ∧ (d.currency.getD "").length ≠ 3 then
    .error "Currency code must be 3 characters long"
  else if truthyInt d.fromBeneficiaryId ∧ d.fromBeneficiaryId.getD 0 ≤ 0 then
    .error "Invalid from beneficiary ID"
  else if truthyInt d.toBeneficiaryId ∧ d.toBeneficiaryId.getD 0 ≤ 0 then
    .error "Invalid to beneficiary ID"
  else if d.fromBeneficiaryId = d.toBeneficiaryId then
    .error "From and to beneficiaries cannot be the same"
  else
    .ok ()

/-- `createTransfer`: validate the data, check each provided beneficiary
exists, re-check `from === to`, then save the transfer with status PENDING. -/
def createTransfer (s : TransferState) (d : TransferData) :
    Except String (Transfer × TransferState) :=
  match validateTransferData d with
  | .error e => .error e
  | .ok () =>
    if truthyInt d.fromBeneficiaryId ∧
        ¬ s.ledger.beneficiaries.contains (d.fromBeneficiaryId.getD 0) then
      .error "From beneficiary not found"
    else if truthyInt d.toBeneficiaryId ∧
        ¬ s.ledger.beneficiaries.contains (d.toBeneficiaryId.getD 0) then
      .error "To beneficiary not found"
    else if d.fromBeneficiaryId = d.toBeneficiaryId then
      .error "From and to beneficiaries cannot be the same"
    else
      let t : Transfer :=
        { transferId := s.transfers.length
          fromBeneficiaryId := d.fromBeneficiaryId
          toBeneficiaryId := d.toBeneficiaryId
          amount := d.amount.getD 0
          currency := d.currency.getD ""
          description := d.description
          status := .PENDING
          failureReason := none
          executedAt := none
          failedAt := none
          cancelledAt := none }
      .ok (t, { s with transfers := s.transfers ++ [t] })

/-- The try-block of `executeTransfer`: check the sender id and balance,
withdraw from the sender, check the recipient id, add funds to the recipient,
then mark the transfer COMPLETED.  Returns the error message of the first
failing step together with the state as mutated so far (the catch-block sees
exactly this partially mutated state). -/
def executeTransferTry (s : TransferState) (now : Nat) (t : Transfer) :
    Option String × TransferState :=
  match t.fromBeneficiaryId with
  | none => (some "From beneficiary ID is required", s)
  | some f =>
    if f = 0 then (some "From beneficiary ID is required", s)
    else
      match BalanceService.getBalanceByBeneficiary s.ledger f with
      | none => (some "Insufficient funds in sender account", s)
      | some fb =>
        if fb.amount < t.amount then (some "Insufficient funds in sender account", s)
        else
          match BalanceService.withdrawFunds s.ledger f t.amount t.currency with
          | .error e => (some e, s)
          | .ok l1 =>
            let s1 : TransferState := { s with ledger := l1 }
            match t.toBeneficiaryId with
            | none => (some "To beneficiary ID is required", s1)
            | some g =>
              if g = 0 then (some "To beneficiary ID is required", s1)
              else
                match BalanceService.addFunds l1 g t.amount t.currency with
                | .error e => (some e, s1)
                | .ok l2 =>
                  let s2 : TransferState := { s1 with ledger := l2 }
                  (none,
                    updateTransfer s2 t.transferId
                      (fun tr => { tr with status := .COMPLETED, executedAt := some now }))

/-- `executeTransfer`: requires an existing PENDING transfer; runs the
debit-then-credit sequence and on any exception marks the transfer FAILED with
the failure reason recorded, re-throwing the error. -/
def executeTransfer (s : TransferState) (now : Nat) (id : Nat) :
    Except String Unit × TransferState :=
  match findById s id with
  | none => (.error "Transfer not found", s)
  | some t =>
    if t.status ≠ .PENDING then (.error "Only pending transfers can be executed", s)
    else
      match executeTransferTry s now t with
      | (none, s') => (.ok (), s')
      | (some e, s') =>
          (.error e,
            updateTransfer s' id
              (fun tr =>
                { tr with status := .FAILED, failedAt := some now, failureReason := some e }))

/-- `retryTransfer`: requires an existing FAILED transfer; clears the failure
metadata and returns it to PENDING. -/
def retryTransfer (s : TransferState) (id : Nat) : Except String TransferState :=
  match findById s id with
  | none => .error "Transfer not found"
  | some t =>
    if t.status ≠ .FAILED then .error "Only failed transfers can be retried"
    else
      .ok (updateTransfer s id
        (fun tr => { tr with status := .PENDING, failedAt := none, failureReason := none }))

/-- `cancelTransfer`: requires an existing transfer whose status is not
COMPLETED; sets CANCELLED and stamps `cancelledAt` with the current time. -/
def cancelTransfer (s : TransferState) (now : Nat) (id : Nat) : Except String TransferState :=
  match findById s id with
  | none => .error "Transfer not found"
  | some t =>
    if t.status = .COMPLETED then .error "Completed transfers cannot be cancelled"
    else
      .ok (updateTransfer s id
        (fun tr => { tr with status := .CANCELLED, cancelledAt := some now }))

end TransferService

/-- `Deal` entity (`src/entity/deal/deal.ts`): top-level escrow agreement. -/
structure Deal where
  dealId : String
  title : String
  amount : Int
  currency : String
  status : DealStatus
  beneficiaryId : Option String
deriving DecidableEq, Repr

/-- `Step` entity (`src/entity/deal/step.ts`): an ordered phase of a deal. -/
structure Step where
  stepId : String
  dealId : String
  stepNumber : Int
  title : String
  amount : Int
  currency : String
  status : StepStatus
  completedAt : Option Nat
  cancelledAt : Option Nat
deriving DecidableEq, Repr

/-- `Deponent` entity (`src/entity/deal/deponent.ts`): a (step, beneficiary)
pair with a deposit amount. -/
structure Deponent where
  deponentId : String
  stepId : String
  beneficiaryId : Option String
  amount : Int
deriving DecidableEq, Repr

/-- `Recipient` entity (`src/entity/deal/recipient.ts`): a
(step, beneficiary, bank details) triple with a disbursement amount. -/
structure Recipient where
  recipientId : String
  stepId : String
  beneficiaryId : Option String
  bankDetailsId : Option String
  amount : Int
deriving DecidableEq, Repr

/-- The deal-side store: deal, step, deponent and recipient rows, plus the
beneficiary repository (by id). -/
structure DealState where
  deals : List Deal
  steps : List Step
  deponents : List Deponent
  recipients : List Recipient
  beneficiaries : List String
deriving DecidableEq, Repr

/-- A structured validation reason as produced by `isDealValid` (`details` is
the optional payload object pushed with the reason). -/
structure ReasonDetails where
  stepId : Option String := none
  totalDeposited : Option Int := none
  totalRequired : Option Int := none
deriving DecidableEq, Repr

/-- A `{ code, description, details? }` reason entry of `isDealValid`. -/
structure Reason where
  code : String
  description : String
  details : Option ReasonDetails := none
deriving DecidableEq, Repr

namespace DealService

/-- `findById`: `findOne` on the deal repository by `dealId`. -/
def findById (s : DealState) (id : String) : Option Deal :=
  s.deals.find? (fun d => d.dealId == id)

/-- The steps of a deal (the hydrated `deal.steps` relation). -/
def stepsOf (s : DealState) (dealId : String) : List Step :=
  s.steps.filter (fun st => st.dealId == dealId)

/-- The deponents of a step (the hydrated `step.deponents` relation). -/
def deponentsOf (s : DealState) (stepId : String) : List Deponent :=
  s.deponents.filter (fun d => d.stepId == stepId)

/-- The recipients of a step (the hydrated `step.recipients` relation). -/
def recipientsOf (s : DealState) (stepId : String) : List Recipient :=
  s.recipients.filter (fun r => r.stepId == stepId)

/-- `repository.update({ dealId: id }, { status })`. -/
def updateDealStatus (s : DealState) (id : String) (st : DealStatus) : DealState :=
  { s with deals := s.deals.map (fun d => if d.dealId = id then { d with status := st } else d) }

/-- `stepRepository.update({ stepId }, patch)`. -/
def updateStep (s : DealState) (stepId : String) (f : Step → Step) : DealState :=
  { s with steps := s.steps.map (fun st => if st.stepId = stepId then f st else st) }

/-- `totalDeposited` of a step: `deponents.reduce((sum, d) => sum + Number(d.amount), 0)`. -/
def depositedTotal (ds : List Deponent) : Int :=
  ds.foldl (fun sum d => sum + d.amount) 0

/-- `totalRequired` of a step: `recipients.reduce((sum, r) => sum + Number(r.amount), 0)`. -/
def requiredTotal (rs : List Recipient) : Int :=
  rs.foldl (fun sum r => sum + r.amount) 0

/-- The DEAL_NOT_FOUND reason record. -/
def dealNotFoundReason : Reason :=
  { code := "DEAL_NOT_FOUND", description := "Deal not found" }

/-- The NO_STEPS_IN_DEAL reason record. -/
def noStepsReason : Reason :=
  { code := "NO_STEPS_IN_DEAL", description := "Deal contains no steps." }

/-- The NO_DEPONENTS_IN_STEP reason record for a step. -/
def noDeponentsReason (stepId : String) : Reason :=
  { code := "NO_DEPONENTS_IN_STEP"
    description := "Step has no deponents."
    details := some { stepId := some stepId } }

/-- The NO_RECIPIENTS_IN_STEP reason record for a step. -/
def noRecipientsReason (stepId : String) : Reason :=
  { code := "NO_RECIPIENTS_IN_STEP"
    description := "Step has no recipients."
    details := some { stepId := some stepId } }

/-- The INSUFFICIENT_DEPOSITS reason record for a step, with the
`{ stepId, totalDeposited, totalRequired }` details payload. -/
def insufficientReason (stepId : String) (totalDeposited totalRequired : Int) : Reason :=
  { code := "INSUFFICIENT_DEPOSITS"
    description := "Total deposited amount is less than total required by recipients."
    details := some
      { stepId := some stepId
        totalDeposited := some totalDeposited
        totalRequired := some totalRequired } }

/-- The reasons pushed for one step by the validation loop of `isDealValid`:
no deponents, no recipients, and insufficient deposits, in that order, all
accumulated without short-circuiting. -/
def stepReasons (s : DealState) (st : Step) : List Reason :=
  (if (deponentsOf s st.stepId).isEmpty then [noDeponentsReason st.stepId] else []) ++
  (if (recipientsOf s st.stepId).isEmpty then [noRecipientsReason st.stepId] else []) ++
  (if depositedTotal (deponentsOf s st.stepId) < requiredTotal (recipientsOf s st.stepId) then
      [insufficientReason st.stepId (depositedTotal (deponentsOf s st.stepId))
        (requiredTotal (recipientsOf s st.stepId))]
    else [])

/-- The `for (const step of deal.steps)` loop of `isDealValid`. -/
def stepsReasons (s : DealState) : List Step → List Reason
  | [] => []
  | st :: rest => stepReasons s st ++ stepsReasons s rest

/-- `isDealValid(dealId)`: `{ isValid, reasons }` — DEAL_NOT_FOUND alone when
the deal does not exist, otherwise NO_STEPS_IN_DEAL or the per-step reasons,
with `isValid` true exactly when `reasons` is empty. -/
def isDealValid (s : DealState) (id : String) : Bool × List Reason :=
  match findById s id with
  | none => (false, [dealNotFoundReason])
  | some _ =>
    let reasons :=
      if (stepsOf s id).isEmpty then [noStepsReason] else stepsReasons s (stepsOf s id)
    (reasons.isEmpty, reasons)

/-- `cancelDeal`: returns null when the deal is absent; throws on a COMPLETED
deal; otherwise sets CANCELLED and reloads. -/
def cancelDeal (s : DealState) (id : String) : Except String (DealState × Option Deal) :=
  match findById s id with
  | none => .ok (s, none)
  | some deal =>
    if deal.status = .COMPLETED then .error "Completed deals cannot be cancelled"
    else
      let s' := updateDealStatus s id .CANCELLED
      .ok (s', findById s' id)

/-- `moveToDraft`: returns null when the deal is absent; throws on a COMPLETED
deal; otherwise sets DRAFT and reloads. -/
def moveToDraft (s : DealState) (id : String) : Except String (DealState × Option Deal) :=
  match findById s id with
  | none => .ok (s, none)
  | some deal =>
    if deal.status = .COMPLETED then .error "Completed deals cannot be moved to draft"
    else
      let s' := updateDealStatus s id .DRAFT
      .ok (s', findById s' id)

/-- `acceptDeal`: returns null when the deal is absent; throws unless the deal
is DRAFT; otherwise sets ACCEPTED and reloads. -/
def acceptDeal (s : DealState) (id : String) : Except String (DealState × Option Deal) :=
  match findById s id with
  | none => .ok (s, none)
  | some deal =>
    if deal.status ≠ .DRAFT then .error "Only draft deals can be accepted"
    else
      let s' := updateDealStatus s id .ACCEPTED
      .ok (s', findById s' id)

/-- `confirmDeal` (deal.service.ts): returns null when the deal is absent and
otherwise sets CONFIRMED unconditionally — there is no status guard. -/
def confirmDeal (s : DealState) (id : String) : Except String (DealState × Option Deal) :=
  match findById s id with
  | none => .ok (s, none)
  | some _ =>
    let s' := updateDealStatus s id .CONFIRMED
    .ok (s', findById s' id)

/-- `completeDeal` (deal.service.ts): returns null when the deal is absent and
otherwise sets COMPLETED unconditionally — the step statuses are never
checked. -/
def completeDeal (s : DealState) (id : String) : Except String (DealState × Option Deal) :=
  match findById s id with
  | none => .ok (s, none)
  | some _ =>
    let s' := updateDealStatus s id .COMPLETED
    .ok (s', findById s' id)

/-- `getStepById(dealId, stepId)`: `findOne` by step id scoped to the deal. -/
def getStepById (s : DealState) (dealId stepId : String) : Option Step :=
  s.steps.find? (fun st => st.stepId == stepId && st.dealId == dealId)

/-- `completeStep(dealId, stepId)` (deal.service.ts): requires the deal and
the step to exist and the step to be neither COMPLETED nor CANCELLED; then
sets COMPLETED with the completion time.  No deponent/recipient or ACTIVE
check is performed. -/
def completeStep (s : DealState) (now : Nat) (dealId stepId : String) :
    Except String (DealState × Option Step) :=
  match findById s dealId with
  | none => .error "Deal not found"
  | some _ =>
    match getStepById s dealId stepId with
    | none => .error "Step not found"
    | some st =>
      if st.status = .COMPLETED then .error "Step is already completed"
      else if st.status = .CANCELLED then .error "Cancelled steps cannot be completed"
      else
        let s' := updateStep s stepId
          (fun x => { x with status := .COMPLETED, completedAt := some now })
        .ok (s', getStepById s' dealId stepId)

/-- Input of the deponent mutations (a `Partial<Deponent>`). -/
structure DeponentData where
  beneficiaryId : Option String := none
  amount : Option Int := none
deriving Repr

/-- Input of the recipient mutations (a `Partial<Recipient>`). -/
structure RecipientData where
  beneficiaryId : Option String := none
  bankDetailsId : Option String := none
  amount : Option Int := none
deriving Repr

/-- `getDeponentByBeneficiaryId(stepId, beneficiaryId)`. -/
def getDeponentByBeneficiaryId (s : DealState) (stepId : String) (benId : Option String) :
    Option Deponent :=
  match benId with
  | none => none
  | some b => s.deponents.find? (fun d => d.stepId == stepId && d.beneficiaryId == some b)

/-- `createOrUpdateDeponent(stepId, data)` (deal.service.ts): requires the
step to exist and the owning deal to be DRAFT; checks a provided beneficiary
exists; then upserts by (step, beneficiary).  (The deal lookup through the
`step.deal` relation is modelled as a lookup by `step.dealId`; the
"Deal not found" branch is unreachable under referential integrity.) -/
def createOrUpdateDeponent (s : DealState) (stepId : String) (d : DeponentData) :
    Except String (Deponent × DealState) :=
  match s.steps.find? (fun st => st.stepId == stepId) with
  | none => .error "Step not found"
  | some st =>
    match findById s st.dealId with
    | none => .error "Deal not found"
    | some deal =>
      if deal.status ≠ .DRAFT then .error "Only draft deals can be modified"
      else if truthyStr d.beneficiaryId ∧
          ¬ s.beneficiaries.contains (d.beneficiaryId.getD "") then
        .error "Beneficiary not found"
      else
        match getDeponentByBeneficiaryId s stepId d.beneficiaryId with
        | some existing =>
          let upd : Deponent := { existing with amount := d.amount.getD existing.amount }
          let deps' :=
            s.deponents.map (fun dep => if dep.deponentId = existing.deponentId then upd else dep)
          .ok (upd, { s with deponents := deps' })
        | none =>
          let dep : Deponent :=
            { deponentId := "dep-" ++ toString s.deponents.length
              stepId := stepId
              beneficiaryId := d.beneficiaryId
              amount := d.amount.getD 0 }
          .ok (dep, { s with deponents := s.deponents ++ [dep] })

/-- `deleteDeponent(deponentId)` (deal.service.ts): returns false when the
deponent is absent; requires the owning deal (through `deponent.step.deal`) to
be DRAFT; then deletes. -/
def deleteDeponent (s : DealState) (deponentId : String) :
    Except String (Bool × DealState) :=
  match s.deponents.find? (fun d => d.deponentId == deponentId) with
  | none => .ok (false, s)
  | some dep =>
    match s.steps.find? (fun st => st.stepId == dep.stepId) with
    | none => .error "Step not found"
    | some st =>
      match findById s st.dealId with
      | none => .error "Deal not found"
      | some deal =>
        if deal.status ≠ .DRAFT then .error "Only draft deals can be modified"
        else
          .ok (true,
            { s with deponents := s.deponents.filter (fun d => d.deponentId != deponentId) })

/-- `createRecipient(stepId, data)` (deal.service.ts): requires the step to
exist and the owning deal to be DRAFT; checks a provided beneficiary exists;
then saves a new recipient. -/
def createRecipient (s : DealState) (stepId : String) (d : RecipientData) :
    Except String (Recipient × DealState) :=
  match s.steps.find? (fun st => st.stepId == stepId) with
  | none => .error "Step not found"
  | some st =>
    match findById s st.dealId with
    | none => .error "Deal not found"
    | some deal =>
      if deal.status ≠ .DRAFT then .error "Only draft deals can be modified"
      else if truthyStr d.beneficiaryId ∧
          ¬ s.beneficiaries.contains (d.beneficiaryId.getD "") then
        .error "Beneficiary not found"
      else
        let r : Recipient :=
          { recipientId := "rec-" ++ toString s.recipients.length
            stepId := stepId
            beneficiaryId := d.beneficiaryId
            bankDetailsId := d.bankDetailsId
            amount := d.amount.getD 0 }
        .ok (r, { s with recipients := s.recipients ++ [r] })

/-- `updateRecipient(recipientId, data)` (deal.service.ts): returns null when
the recipient is absent; requires the owning deal to be DRAFT; then patches
the recipient. -/
def updateRecipient (s : DealState) (recipientId : String) (d : RecipientData) :
    Except String (Option Recipient × DealState) :=
  match s.recipients.find? (fun r => r.recipientId == recipientId) with
  | none => .ok (none, s)
  | some rec0 =>
    match s.steps.find? (fun st => st.stepId == rec0.stepId) with
    | none => .error "Step not found"
    | some st =>
      match findById s st.dealId with
      | none => .error "Deal not found"
      | some deal =>
        if deal.status ≠ .DRAFT then .error "Only draft deals can be modified"
        else
          let upd : Recipient :=
            { rec0 with
                beneficiaryId :=
                  (match d.beneficiaryId with | none => rec0.beneficiaryId | some b => some b)
                bankDetailsId :=
                  (match d.bankDetailsId with | none => rec0.bankDetailsId | some b => some b)
                amount := d.amount.getD rec0.amount }
          let recs' :=
            s.recipients.map (fun r => if r.recipientId = recipientId then upd else r)
          .ok (some upd, { s with recipients := recs' })

/-- `deleteRecipient(recipientId)` (deal.service.ts): returns false when the
recipient is absent; requires the owning deal to be DRAFT; then deletes. -/
def deleteRecipient (s : DealState) (recipientId : String) :
    Except String (Bool × DealState) :=
  match s.recipients.find? (fun r => r.recipientId == recipientId) with
  | none => .ok (false, s)
  | some rec0 =>
    match s.steps.find? (fun st => st.stepId == rec0.stepId) with
    | none => .error "Only draft deals can be modified"
    | some st =>
      match findById s st.dealId with
      | none => .error "Deal not found"
      | some deal =>
        if deal.status ≠ .DRAFT then .error "Only draft deals can be modified"
        else
          .ok (true,
            { s with recipients := s.recipients.filter (fun r => r.recipientId != recipientId) })

end DealService

namespace LegacyDealService

/-- `confirmDeal` of the older DealService revision: throws when the deal is
absent; requires status DRAFT; then sets CONFIRMED. -/
def confirmDeal (s : DealState) (id : String) : Except String (DealState × Option Deal) :=
  match DealService.findById s id with
  | none => .error "Deal not found"
  | some deal =>
    if deal.status ≠ .DRAFT then .error "Only draft deals can be confirmed"
    else
      let s' := DealService.updateDealStatus s id .CONFIRMED
      .ok (s', DealService.findById s' id)

/-- `completeDeal` of the older DealService revision: throws when the deal is
absent; throws when any step of the deal is not COMPLETED; then sets
COMPLETED. -/
def completeDeal (s : DealState) (id : String) : Except String (DealState × Option Deal) :=
  match DealService.findById s id with
  | none => .error "Deal not found"
  | some _ =>
    if (DealService.stepsOf s id).any (fun st => st.status != .COMPLETED) then
      .error "All steps must be completed before completing the deal"
    else
      let s' := DealService.updateDealStatus s id .COMPLETED
      .ok (s', DealService.findById s' id)

end LegacyDealService

namespace StepService

/-- `completeStep(id)` (step.service.ts): requires the step to exist, its
status to be ACTIVE, and at least one deponent and one recipient; then sets
COMPLETED with the completion time. -/
def completeStep (s : DealState) (now : Nat) (stepId : String) :
    Except String (DealState × Option Step) :=
  match s.steps.find? (fun st => st.stepId == stepId) with
  | none => .error "Step not found"
  | some st =>
    if st.status ≠ .ACTIVE then .error "Only active steps can be completed"
    else if (DealService.deponentsOf s stepId).isEmpty then
      .error "At least one deponent must be added before completing the step"
    else if (DealService.recipientsOf s stepId).isEmpty then
      .error "At least one recipient must be added before completing the step"
    else
      let s' := DealService.updateStep s stepId
        (fun x => { x with status := .COMPLETED, completedAt := some now })
      .ok (s', s'.steps.find? (fun x => x.stepId == stepId))

/-- `createOrUpdateDeponent(stepId, data)` (step.service.ts): requires only
that the step exists and a provided beneficiary exists — the owning deal's
status is never consulted, and a new deponent row is always created. -/
def createOrUpdateDeponent (s : DealState) (stepId : String) (d : DealService.DeponentData) :
    Except String (Deponent × DealState) :=
  match s.steps.find? (fun st => st.stepId == stepId) with
  | none => .error "Step not found"
  | some _ =>
    if truthyStr d.beneficiaryId ∧
        ¬ s.beneficiaries.contains (d.beneficiaryId.getD "") then
      .error "Beneficiary not found"
    else
      let dep : Deponent :=
        { deponentId := "dep-" ++ toString s.deponents.length
          stepId := stepId
          beneficiaryId := d.beneficiaryId
          amount := d.amount.getD 0 }
      .ok (dep, { s with deponents := s.deponents ++ [dep] })

end StepService

/-- Example deal in status ACCEPTED (used by concrete evaluations below). -/
def exDealAccepted : Deal :=
  { dealId := "d1", title := "Deal", amount := 800000, currency := "RUB"
    status := .ACCEPTED, beneficiaryId := some "A" }

/-- Example deal in status COMPLETED. -/
def exDealCompleted : Deal := { exDealAccepted with dealId := "d2", status := .COMPLETED }

/-- Example step of `exDealAccepted` in status ACTIVE. -/
def exStepActive : Step :=
  { stepId := "s1", dealId := "d1", stepNumber := 1, title := "Stage 1"
    amount := 800000, currency := "RUB", status := .ACTIVE
    completedAt := none, cancelledAt := none }

/-- Example step of `exDealAccepted` in status NEW. -/
def exStepNew : Step := { exStepActive with status := .NEW }

/-- Example deponent of step s1 (beneficiary A deposits 800000). -/
def exDeponentA : Deponent :=
  { deponentId := "dep-0", stepId := "s1", beneficiaryId := some "A", amount := 800000 }

/-- Example recipient of step s1 (beneficiary B is owed 900000). -/
def exRecipientB : Recipient :=
  { recipientId := "rec-0", stepId := "s1", beneficiaryId := some "B"
    bankDetailsId := some "bd1", amount := 900000 }

/-- Deal store where step s1 is underfunded by 100000 (the spec's second
scenario). -/
def c2State : DealState :=
  { deals := [exDealAccepted], steps := [exStepActive], deponents := [exDeponentA]
    recipients := [exRecipientB], beneficiaries := ["A", "B"] }

/-- Deal store with a single ACTIVE (hence not COMPLETED) step. -/
def c3State : DealState :=
  { deals := [exDealAccepted], steps := [exStepActive], deponents := []
    recipients := [], beneficiaries := [] }

/-- Deal store with a single NEW step that has no deponents and no
recipients. -/
def c4State : DealState :=
  { deals := [exDealAccepted], steps := [exStepNew], deponents := []
    recipients := [], beneficiaries := [] }

/-- Deal store holding one COMPLETED deal. -/
def c7State : DealState :=
  { deals := [exDealCompleted], steps := [], deponents := []
    recipients := [], beneficiaries := [] }

/-- Deal store where step s1 belongs to an ACCEPTED (non-DRAFT) deal. -/
def c8State : DealState :=
  { deals := [exDealAccepted], steps := [exStepActive], deponents := []
    recipients := [], beneficiaries := ["A"] }

/-- Example PENDING transfer of 100 from beneficiary 1 to beneficiary 2. -/
def exTransfer : Transfer :=
  { transferId := 7, fromBeneficiaryId := some 1, toBeneficiaryId := some 2
    amount := 100, currency := "RUB", description := none, status := .PENDING
    failureReason := none, executedAt := none, failedAt := none, cancelledAt := none }

/-- Transfer store where the sender's balance (50) is below the transfer
amount (100) — the spec's fifth scenario. -/
def c1State : TransferState :=
  { transfers := [exTransfer]
    ledger := { balances := [⟨0, 1, 50, "RUB"⟩], holds := [], beneficiaries := [1, 2] } }

/-- Example transfer that is already CANCELLED. -/
def exTransferCancelled : Transfer :=
  { exTransfer with transferId := 8, status := .CANCELLED, cancelledAt := some 3 }

/-- Transfer store holding one CANCELLED transfer. -/
def c10State : TransferState :=
  { transfers := [exTransferCancelled]
    ledger := { balances := [], holds := [], beneficiaries := [] } }

/-- Transfer store with two beneficiaries and no transfers. -/
def c9State : TransferState :=
  { transfers := []
    ledger := { balances := [], holds := [], beneficiaries := [1, 2] } }

/-- A creation request with amount 0 between two distinct existing
beneficiaries. -/
def c9Data : TransferService.TransferData :=
  { fromBeneficiaryId := some 1, toBeneficiaryId := some 2
    amount := some 0, currency := some "USD" }

/-- Ledger store with one balance of 100 for beneficiary 1 and one unrelated
ACTIVE hold. -/
def c5State : LedgerState :=
  { balances := [⟨0, 1, 100, "RUB"⟩]
    holds := [⟨0, 1, 40, "RUB", "reserve", "ACTIVE", 0⟩]
    beneficiaries := [1] }

/-- The transfer record produced by `createTransfer c9State c9Data`. -/
def c9Transfer : Transfer :=
  { transferId := 0, fromBeneficiaryId := some 1, toBeneficiaryId := some 2
    amount := 0, currency := "USD", description := none, status := .PENDING
    failureReason := none, executedAt := none, failedAt := none, cancelledAt := none }

/-- The transfer store after `createTransfer c9State c9Data`. -/
def c9After : TransferState := { c9State with transfers := [c9Transfer] }

/-- Generic lemma: mapping a row-patching function that does not change the
searched field commutes with `find?`. -/
theorem find?_map_patch {α : Type} (l : List α) (p : α → Bool) (g : α → α)
    (hg : ∀ a, p (g a) = p a) :
    (l.map g).find? p = (l.find? p).map g := by
  induction l with
  | nil => rfl
  | cons a tl ih =>
    cases hpa : p a with
    | true =>
        simp [List.find?_cons_of_pos, hpa, hg a]
    | false =>
        simp [List.find?_cons_of_neg, hpa, hg a, ih]

/-- Generic lemma: a `find?` hit also wins a `find?` with a conjoined second
test that the hit satisfies. -/
theorem find?_and_of_find? {α : Type} (l : List α) (p q : α → Bool) (a : α)
    (h : l.find? p = some a) (hq : q a = true) :
    l.find? (fun x => p x && q x) = some a := by
  induction l with
  | nil => simp at h
  | cons b tl ih =>
    cases hpb : p b with
    | true =>
        rw [List.find?_cons_of_pos _ hpb] at h
        injection h with h
        subst h
        exact List.find?_cons_of_pos _ (by simp [hpb, hq])
    | false =>
        rw [List.find?_cons_of_neg _ (by simp [hpb])] at h
        rw [List.find?_cons_of_neg _ (by simp [hpb])]
        exact ih h

/-- Claim C5: for every account with an existing balance, `withdrawFunds`
fails with InsufficientFunds exactly when the requested amount is greater than
`balance.amount` (the raw total — the holds list is irrelevant to the outcome,
as the third conjunct shows), and otherwise decreases `balance.amount` by
exactly the requested amount, leaving holds and beneficiaries untouched. -/
theorem C5_withdrawFunds (s : LedgerState) (benId amount : Int) (c : String) (b : Balance)
    (hb : BalanceService.getBalanceByBeneficiary s benId = some b) :
    (amount > b.amount →
      BalanceService.withdrawFunds s benId amount c = .error "Insufficient funds") ∧
    (amount ≤ b.amount →
      ∃ s', BalanceService.withdrawFunds s benId amount c = .ok s' ∧
        BalanceService.getBalanceByBeneficiary s' benId =
          some { b with amount := b.amount - amount } ∧
        s'.holds = s.holds ∧ s'.beneficiaries = s.beneficiaries) ∧
    (∀ hs : List Hold,
      BalanceService.withdrawFunds { s with holds := hs } benId amount c =
        (BalanceService.withdrawFunds s benId amount c).map
          (fun s' => { s' with holds := hs })) := by
  refine ⟨?_, ?_, ?_⟩
  · intro hgt
    unfold BalanceService.withdrawFunds
    rw [hb]
    simp [show b.amount < amount from hgt]
  · intro hle
    refine ⟨BalanceService.updateBalanceAmount s b.balanceId (b.amount - amount), ?_, ?_, rfl, rfl⟩
    · unfold BalanceService.withdrawFunds
      rw [hb]
      simp [show ¬ b.amount < amount from not_lt.mpr hle]
    · unfold BalanceService.getBalanceByBeneficiary BalanceService.updateBalanceAmount
      rw [find?_map_patch _ _ _
        (fun a => by by_cases ha : a.balanceId = b.balanceId <;> simp [ha])]
      rw [show s.balances.find? (fun x => x.beneficiaryId == benId) = some b from hb]
      simp
  · intro hs
    have hb2 : BalanceService.getBalanceByBeneficiary { s with holds := hs } benId = some b := hb
    unfold BalanceService.withdrawFunds
    rw [hb, hb2]
    by_cases hlt : b.amount < amount
    · simp [hlt, Except.map]
    · simp only [hlt, if_neg, ite_false]
      rfl

/-- Claim C6: for every account with an existing balance, `createHold` fails
with InsufficientFunds when the requested hold amount is greater than
`balance.amount` (leaving balance and holds untouched — the error branch
returns no new state), and on success appends a Hold with status ACTIVE while
never modifying any balance row. -/
theorem C6_createHold (s : LedgerState) (benId amount : Int) (c reason : String) (now : Nat)
    (b : Balance) (hb : BalanceService.getBalanceByBeneficiary s benId = some b) :
    (amount > b.amount →
      BalanceService.createHold s benId amount c reason now = .error "Insufficient funds for hold") ∧
    (amount ≤ b.amount →
      ∃ h s', BalanceService.createHold s benId amount c reason now = .ok (h, s') ∧
        h.status = "ACTIVE" ∧ h.amount = amount ∧ h.beneficiaryId = benId ∧
        s'.balances = s.balances ∧ s'.holds = s.holds ++ [h]) := by
  constructor
  · intro hgt
    unfold BalanceService.createHold
    rw [hb]
    simp [show b.amount < amount from hgt]
  · intro hle
    have key : BalanceService.createHold s benId amount c reason now =
        .ok (⟨s.holds.length, benId, amount, c, reason, "ACTIVE", now⟩,
          { s with holds := s.holds ++ [⟨s.holds.length, benId, amount, c, reason, "ACTIVE", now⟩] }) := by
      unfold BalanceService.createHold
      rw [hb]
      simp [show ¬ b.amount < amount from not_lt.mpr hle]
    exact ⟨_, _, key, rfl, rfl, rfl, rfl, rfl⟩

/-- Claim C10: `cancelTransfer` rejects only COMPLETED transfers; every
existing transfer in any other status — including one already CANCELLED — is
cancelled again, with the cancellation timestamp refreshed to the current
time. -/
theorem C10_cancelTransfer (s : TransferState) (now : Nat) (id : Nat) (t : Transfer)
    (h : TransferService.findById s id = some t) :
    (t.status = .COMPLETED →
      TransferService.cancelTransfer s now id = .error "Completed transfers cannot be cancelled") ∧
    (t.status ≠ .COMPLETED →
      ∃ s', TransferService.cancelTransfer s now id = .ok s' ∧
        TransferService.findById s' id =
          some { t with status := .CANCELLED, cancelledAt := some now }) := by
  have hid : t.transferId = id := by simpa using List.find?_some h
  constructor
  · intro hC
    unfold TransferService.cancelTransfer
    rw [h]
    simp [hC]
  · intro hC
    refine ⟨TransferService.updateTransfer s id
      (fun tr => { tr with status := .CANCELLED, cancelledAt := some now }), ?_, ?_⟩
    · unfold TransferService.cancelTransfer
      rw [h]
      simp [hC]
    · unfold TransferService.findById TransferService.updateTransfer
      rw [find?_map_patch _ _ _
        (fun a => by by_cases ha : a.transferId = id <;> simp [ha])]
      rw [show s.transfers.find? (fun x => x.transferId == id) = some t from h]
      simp [hid]

/-- The try-block of `executeTransfer` never touches the transfer repository
before failing: whenever it reports an error, the transfers list of the state
it hands to the catch-block is the original one (only the ledger may have been
debited). -/
theorem executeTransferTry_error_transfers (s : TransferState) (now : Nat) (t : Transfer) :
    (TransferService.executeTransferTry s now t).1 = none ∨
      (TransferService.executeTransferTry s now t).2.transfers = s.transfers := by
  unfold TransferService.executeTransferTry
  repeat first
    | exact Or.inl rfl
    | exact Or.inr rfl
    | split

/-- Claim C1: `executeTransfer` requires status PENDING; any exception raised
during the verify/withdraw/deposit sequence leaves the Transfer FAILED with
the failure reason recorded while the error is re-thrown; in particular, when
the sender's balance is less than the transfer amount the call fails with the
insufficient-funds error, the transfer ends FAILED with `failureReason`
populated, and no balance on either side changes. -/
theorem C1_executeTransfer (s : TransferState) (now : Nat) (id : Nat) (t : Transfer)
    (h : TransferService.findById s id = some t) :
    (t.status ≠ .PENDING →
      TransferService.executeTransfer s now id =
        (.error "Only pending transfers can be executed", s)) ∧
    (t.status = .PENDING →
      ∀ e s2, TransferService.executeTransfer s now id = (.error e, s2) →
        ∃ tr', TransferService.findById s2 id = some tr' ∧
          tr'.status = .FAILED ∧ tr'.failureReason = some e ∧ tr'.failedAt = some now) ∧
    (t.status = .PENDING →
      ∀ f, t.fromBeneficiaryId = some f → f ≠ 0 →
      ∀ b, BalanceService.getBalanceByBeneficiary s.ledger f = some b →
        b.amount < t.amount →
        (TransferService.executeTransfer s now id).1 =
          .error "Insufficient funds in sender account" ∧
        (TransferService.executeTransfer s now id).2.ledger = s.ledger ∧
        TransferService.findById (TransferService.executeTransfer s now id).2 id =
          some { t with
                  status := .FAILED
                  failedAt := some now
                  failureReason := some "Insufficient funds in sender account" }) := by
  have hid : t.transferId = id := by simpa using List.find?_some h
  refine ⟨?_, ?_, ?_⟩
  · intro hnp
    unfold TransferService.executeTransfer
    rw [h]
    simp [hnp]
  · intro hp e s2 hexec
    unfold TransferService.executeTransfer at hexec
    rw [h] at hexec
    simp only [hp, ne_eq, not_true_eq_false, if_false, ite_false] at hexec
    rcases htry : TransferService.executeTransferTry s now t with ⟨o, s1⟩
    rw [htry] at hexec
    cases o with
    | none => simp at hexec
    | some e' =>
      simp only [Prod.mk.injEq, Except.error.injEq] at hexec
      obtain ⟨he, hs2⟩ := hexec
      subst he
      have htrans : s1.transfers = s.transfers := by
        rcases executeTransferTry_error_transfers s now t with hh | hh
        · rw [htry] at hh; simp at hh
        · rw [htry] at hh; exact hh
      refine ⟨{ t with status := .FAILED, failedAt := some now, failureReason := some e' }, ?_, rfl, rfl, rfl⟩
      rw [← hs2]
      unfold TransferService.findById TransferService.updateTransfer
      simp only
      rw [htrans]
      rw [find?_map_patch _ _ _
        (fun a => by by_cases ha : a.transferId = id <;> simp [ha])]
      rw [show s.transfers.find? (fun x => x.transferId == id) = some t from h]
      simp [hid]
  · intro hp f hf hf0 b hbal hlt
    have hkey : TransferService.executeTransfer s now id =
        (.error "Insufficient funds in sender account",
          TransferService.updateTransfer s id
            (fun tr => { tr with
                          status := .FAILED
                          failedAt := some now
                          failureReason := some "Insufficient funds in sender account" })) := by
      unfold TransferService.executeTransfer
      rw [h]
      simp only [hp, ne_eq, not_true_eq_false, if_false, ite_false]
      have htry : TransferService.executeTransferTry s now t =
          (some "Insufficient funds in sender account", s) := by
        unfold TransferService.executeTransferTry
        rw [hf]
        simp only [hf0, if_neg, ite_false]
        rw [hbal]
        simp [hlt]
      rw [htry]
    refine ⟨by rw [hkey], by rw [hkey]; rfl, ?_⟩
    rw [hkey]
    unfold TransferService.findById TransferService.updateTransfer
    simp only
    rw [find?_map_patch _ _ _
      (fun a => by by_cases ha : a.transferId = id <;> simp [ha])]
    rw [show s.transfers.find? (fun x => x.transferId == id) = some t from h]
    simp [hid]

/-- Membership in an append of three conditional singletons. -/
theorem mem_ifSingletons {α : Type} (c1 c2 c3 : Prop) [Decidable c1] [Decidable c2]
    [Decidable c3] (a b d r : α) :
    (r ∈ (if c1 then [a] else []) ++ (if c2 then [b] else []) ++ (if c3 then [d] else [])) ↔
      (c1 ∧ r = a) ∨ (c2 ∧ r = b) ∨ (c3 ∧ r = d) := by
  split_ifs <;> simp_all

/-- An append of three conditional singletons is empty exactly when all three
conditions fail. -/
theorem ifSingletons_eq_nil {α : Type} (c1 c2 c3 : Prop) [Decidable c1] [Decidable c2]
    [Decidable c3] (a b d : α) :
    ((if c1 then [a] else []) ++ (if c2 then [b] else []) ++ (if c3 then [d] else []) = []) ↔
      (¬ c1 ∧ ¬ c2 ∧ ¬ c3) := by
  split_ifs <;> simp_all

/-- Membership in the reasons pushed for one step. -/
theorem mem_stepReasons (s : DealState) (st : Step) (r : Reason) :
    r ∈ DealService.stepReasons s st ↔
      (DealService.deponentsOf s st.stepId = [] ∧ r = DealService.noDeponentsReason st.stepId) ∨
      (DealService.recipientsOf s st.stepId = [] ∧ r = DealService.noRecipientsReason st.stepId) ∨
      (DealService.depositedTotal (DealService.deponentsOf s st.stepId) <
          DealService.requiredTotal (DealService.recipientsOf s st.stepId) ∧
        r = DealService.insufficientReason st.stepId
              (DealService.depositedTotal (DealService.deponentsOf s st.stepId))
              (DealService.requiredTotal (DealService.recipientsOf s st.stepId))) := by
  unfold DealService.stepReasons
  rw [mem_ifSingletons]
  simp [List.isEmpty_iff]

/-- Membership in the accumulated per-step reasons list. -/
theorem mem_stepsReasons (s : DealState) (l : List Step) (r : Reason) :
    r ∈ DealService.stepsReasons s l ↔ ∃ st ∈ l, r ∈ DealService.stepReasons s st := by
  induction l with
  | nil => simp [DealService.stepsReasons]
  | cons st rest ih =>
      simp [DealService.stepsReasons, List.mem_append, ih]

/-- A step contributes no reason exactly when it has a deponent, a recipient,
and sufficient deposits. -/
theorem stepReasons_eq_nil (s : DealState) (st : Step) :
    DealService.stepReasons s st = [] ↔
      (DealService.deponentsOf s st.stepId ≠ [] ∧
       DealService.recipientsOf s st.stepId ≠ [] ∧
       DealService.requiredTotal (DealService.recipientsOf s st.stepId) ≤
         DealService.depositedTotal (DealService.deponentsOf s st.stepId)) := by
  unfold DealService.stepReasons
  rw [ifSingletons_eq_nil]
  simp [List.isEmpty_iff, not_lt]

/-- The accumulated list is empty exactly when every step contributes no
reason. -/
theorem stepsReasons_eq_nil (s : DealState) (l : List Step) :
    DealService.stepsReasons s l = [] ↔ ∀ st ∈ l, DealService.stepReasons s st = [] := by
  induction l with
  | nil => simp [DealService.stepsReasons]
  | cons st rest ih =>
      simp [DealService.stepsReasons, List.append_eq_nil, ih]

/-- Claim C2: `isDealValid` returns `{ isValid, reasons }` without throwing:
DEAL_NOT_FOUND alone when the deal does not exist; otherwise it accumulates
(without short-circuiting) NO_STEPS_IN_DEAL for a step-less deal and, per
step, NO_DEPONENTS_IN_STEP, NO_RECIPIENTS_IN_STEP, and INSUFFICIENT_DEPOSITS
with details `{stepId, totalDeposited, totalRequired}` exactly when the sum of
the step's deponent amounts is less than the sum of its recipient amounts; and
`isValid` is true exactly when `reasons` is empty. -/
theorem C2_isDealValid (s : DealState) (id : String) :
    (DealService.findById s id = none →
      DealService.isDealValid s id = (false, [DealService.dealNotFoundReason])) ∧
    ((DealService.isDealValid s id).1 = (DealService.isDealValid s id).2.isEmpty) ∧
    (∀ d, DealService.findById s id = some d →
      (DealService.noStepsReason ∈ (DealService.isDealValid s id).2 ↔
        DealService.stepsOf s id = []) ∧
      (∀ st ∈ DealService.stepsOf s id,
        (DealService.noDeponentsReason st.stepId ∈ (DealService.isDealValid s id).2 ↔
          DealService.deponentsOf s st.stepId = []) ∧
        (DealService.noRecipientsReason st.stepId ∈ (DealService.isDealValid s id).2 ↔
          DealService.recipientsOf s st.stepId = []) ∧
        (∀ dtot rtot,
          DealService.insufficientReason st.stepId dtot rtot ∈ (DealService.isDealValid s id).2 ↔
            dtot = DealService.depositedTotal (DealService.deponentsOf s st.stepId) ∧
            rtot = DealService.requiredTotal (DealService.recipientsOf s st.stepId) ∧
            dtot < rtot)) ∧
      ((DealService.isDealValid s id).1 = true ↔
        DealService.stepsOf s id ≠ [] ∧
        ∀ st ∈ DealService.stepsOf s id,
          DealService.deponentsOf s st.stepId ≠ [] ∧
          DealService.recipientsOf s st.stepId ≠ [] ∧
          DealService.requiredTotal (DealService.recipientsOf s st.stepId) ≤
            DealService.depositedTotal (DealService.deponentsOf s st.stepId))) := by
  refine ⟨?_, ?_, ?_⟩
  · intro hnone
    unfold DealService.isDealValid
    rw [hnone]
  · unfold DealService.isDealValid
    cases hfd : DealService.findById s id <;> simp
  · intro d hd
    have hval : DealService.isDealValid s id =
        (let reasons := if (DealService.stepsOf s id).isEmpty then [DealService.noStepsReason]
          else DealService.stepsReasons s (DealService.stepsOf s id)
         (reasons.isEmpty, reasons)) := by
      unfold DealService.isDealValid
      rw [hd]
    by_cases hse : DealService.stepsOf s id = []
    · have hval2 : DealService.isDealValid s id = (false, [DealService.noStepsReason]) := by
        rw [hval]; simp [hse]
      rw [hval2]
      refine ⟨by simp [hse], ?_, ?_⟩
      · intro st hst
        rw [hse] at hst
        simp at hst
      · simp [hse]
    · have hval2 : DealService.isDealValid s id =
          ((DealService.stepsReasons s (DealService.stepsOf s id)).isEmpty,
            DealService.stepsReasons s (DealService.stepsOf s id)) := by
        rw [hval]; simp [List.isEmpty_iff, hse]
      rw [hval2]
      refine ⟨?_, ?_, ?_⟩
      · simp only [hse, iff_false]
        intro hmem
        rw [mem_stepsReasons] at hmem
        obtain ⟨st, -, hr⟩ := hmem
        rw [mem_stepReasons] at hr
        rcases hr with ⟨-, hr⟩ | ⟨-, hr⟩ | ⟨-, hr⟩ <;>
          simp [DealService.noStepsReason, DealService.noDeponentsReason,
            DealService.noRecipientsReason, DealService.insufficientReason] at hr
      · intro st hst
        refine ⟨?_, ?_, ?_⟩
        · rw [mem_stepsReasons]
          constructor
          · rintro ⟨st', hst', hr⟩
            rw [mem_stepReasons] at hr
            rcases hr with ⟨hemp, hr⟩ | ⟨-, hr⟩ | ⟨-, hr⟩
            · have hsid : st.stepId = st'.stepId := by
                simpa [DealService.noDeponentsReason] using hr
              rw [hsid]
              exact hemp
            · exact absurd hr
                (by simp [DealService.noDeponentsReason, DealService.noRecipientsReason])
            · exact absurd hr
                (by simp [DealService.noDeponentsReason, DealService.insufficientReason])
          · intro hemp
            exact ⟨st, hst, by rw [mem_stepReasons]; exact Or.inl ⟨hemp, rfl⟩⟩
        · rw [mem_stepsReasons]
          constructor
          · rintro ⟨st', hst', hr⟩
            rw [mem_stepReasons] at hr
            rcases hr with ⟨-, hr⟩ | ⟨hemp, hr⟩ | ⟨-, hr⟩
            · exact absurd hr
                (by simp [DealService.noDeponentsReason, DealService.noRecipientsReason])
            · have hsid : st.stepId = st'.stepId := by
                simpa [DealService.noRecipientsReason] using hr
              rw [hsid]
              exact hemp
            · exact absurd hr
                (by simp [DealService.noRecipientsReason, DealService.insufficientReason])
          · intro hemp
            exact ⟨st, hst, by rw [mem_stepReasons]; exact Or.inr (Or.inl ⟨hemp, rfl⟩)⟩
        · intro dtot rtot
          rw [mem_stepsReasons]
          constructor
          · rintro ⟨st', hst', hr⟩
            rw [mem_stepReasons] at hr
            rcases hr with ⟨-, hr⟩ | ⟨-, hr⟩ | ⟨hlt, hr⟩
            · exact absurd hr
                (by simp [DealService.noDeponentsReason, DealService.insufficientReason])
            · exact absurd hr
                (by simp [DealService.noRecipientsReason, DealService.insufficientReason])
            · have hkey : st.stepId = st'.stepId ∧
                  dtot = DealService.depositedTotal (DealService.deponentsOf s st'.stepId) ∧
                  rtot = DealService.requiredTotal (DealService.recipientsOf s st'.stepId) := by
                simpa [DealService.insufficientReason] using hr
              obtain ⟨hsid, hdt, hrt⟩ := hkey
              rw [← hsid] at hdt hrt hlt
              exact ⟨hdt, hrt, by rw [hdt, hrt]; exact hlt⟩
          · rintro ⟨hdt, hrt, hlt⟩
            subst hdt; subst hrt
            exact ⟨st, hst, by rw [mem_stepReasons]; exact Or.inr (Or.inr ⟨hlt, rfl⟩)⟩
      · rw [List.isEmpty_iff, stepsReasons_eq_nil]
        constructor
        · intro hall
          exact ⟨hse, fun st hst => (stepReasons_eq_nil s st).mp (hall st hst)⟩
        · rintro ⟨-, hall⟩
          exact fun st hst => (stepReasons_eq_nil s st).mpr (hall st hst)

/-- Patching the status of the rows matching a deal id and then looking the
deal up returns the found deal with the patched status. -/
theorem findById_updateDealStatus (s : DealState) (id : String) (d : Deal)
    (h : DealService.findById s id = some d) (st : DealStatus) :
    DealService.findById (DealService.updateDealStatus s id st) id =
      some { d with status := st } := by
  have hid : d.dealId = id := by simpa using List.find?_some h
  unfold DealService.findById DealService.updateDealStatus
  simp only
  rw [find?_map_patch _ _ _ (fun a => by by_cases ha : a.dealId = id <;> simp [ha])]
  rw [show s.deals.find? (fun x => x.dealId == id) = some d from h]
  simp [hid]

/-- Claim C3 (amended): `completeDeal` in deal.service.ts sets any existing
deal's status to COMPLETED without inspecting its steps; the step-completion
guard claimed by the spec exists only in the older DealService revision, whose
`completeDeal` fails (leaving the deal untouched) whenever some step is not
COMPLETED and succeeds otherwise. -/
theorem C3_amended (s : DealState) (id : String) (d : Deal)
    (h : DealService.findById s id = some d) :
    (∃ s', DealService.completeDeal s id = .ok (s', DealService.findById s' id) ∧
      DealService.findById s' id = some { d with status := .COMPLETED }) ∧
    ((DealService.stepsOf s id).any (fun st => st.status != .COMPLETED) = true →
      LegacyDealService.completeDeal s id =
        .error "All steps must be completed before completing the deal") ∧
    ((DealService.stepsOf s id).any (fun st => st.status != .COMPLETED) = false →
      ∃ s', LegacyDealService.completeDeal s id = .ok (s', DealService.findById s' id) ∧
        DealService.findById s' id = some { d with status := .COMPLETED }) := by
  have hfind := findById_updateDealStatus s id d h .COMPLETED
  refine ⟨⟨_, ?_, hfind⟩, ?_, ?_⟩
  · unfold DealService.completeDeal
    rw [h]
  · intro hany
    unfold LegacyDealService.completeDeal
    rw [h]
    simp [hany]
  · intro hany
    refine ⟨_, ?_, hfind⟩
    unfold LegacyDealService.completeDeal
    rw [h]
    simp [hany]

/-- Claim C7 (amended): once a Deal is COMPLETED, `acceptDeal`, `cancelDeal`,
`moveToDraft` and `completeDeal` leave its status COMPLETED (the first three
throw, the last re-sets COMPLETED) — but `confirmDeal` in deal.service.ts has
no status guard and moves even a COMPLETED deal to CONFIRMED, so COMPLETED is
not terminal under the full operation set; the older DealService revision
guards `confirmDeal` with a DRAFT-only check. -/
theorem C7_amended (s : DealState) (id : String) (d : Deal)
    (h : DealService.findById s id = some d) (hC : d.status = .COMPLETED) :
    DealService.acceptDeal s id = .error "Only draft deals can be accepted" ∧
    DealService.cancelDeal s id = .error "Completed deals cannot be cancelled" ∧
    DealService.moveToDraft s id = .error "Completed deals cannot be moved to draft" ∧
    (∃ s', DealService.completeDeal s id = .ok (s', DealService.findById s' id) ∧
      DealService.findById s' id = some d) ∧
    (∃ s', DealService.confirmDeal s id = .ok (s', DealService.findById s' id) ∧
      DealService.findById s' id = some { d with status := .CONFIRMED }) ∧
    LegacyDealService.confirmDeal s id = .error "Only draft deals can be confirmed" := by
  have hdeq : ({ d with status := DealStatus.COMPLETED } : Deal) = d := by
    cases d
    simp_all
  refine ⟨?_, ?_, ?_, ?_, ?_, ?_⟩
  · unfold DealService.acceptDeal
    rw [h]
    simp [hC]
  · unfold DealService.cancelDeal
    rw [h]
    simp [hC]
  · unfold DealService.moveToDraft
    rw [h]
    simp [hC]
  · refine ⟨DealService.updateDealStatus s id .COMPLETED, ?_, ?_⟩
    · unfold DealService.completeDeal
      rw [h]
    · rw [findById_updateDealStatus s id d h .COMPLETED, hdeq]
  · refine ⟨_, ?_, findById_updateDealStatus s id d h .CONFIRMED⟩
    unfold DealService.confirmDeal
    rw [h]
  · unfold LegacyDealService.confirmDeal
    rw [h]
    simp [hC]

/-- Claim C4 (amended): `StepService.completeStep` enforces the claimed
preconditions — status ACTIVE, at least one deponent and at least one
recipient — before setting COMPLETED with the completion time; but
`DealService.completeStep(dealId, stepId)` (the operation wired to the
completion route) requires only that the deal and step exist and that the step
is neither COMPLETED nor CANCELLED: it completes a NEW or ACTIVE step with no
deponent/recipient check.  In both services a COMPLETED or CANCELLED step
cannot be completed, and failures return no new state. -/
theorem C4_amended (s : DealState) (now : Nat) (stepId : String) (st : Step)
    (hst : s.steps.find? (fun x => x.stepId == stepId) = some st) :
    (st.status ≠ .ACTIVE →
      StepService.completeStep s now stepId = .error "Only active steps can be completed") ∧
    (st.status = .ACTIVE → DealService.deponentsOf s stepId = [] →
      StepService.completeStep s now stepId =
        .error "At least one deponent must be added before completing the step") ∧
    (st.status = .ACTIVE → DealService.deponentsOf s stepId ≠ [] →
      DealService.recipientsOf s stepId = [] →
      StepService.completeStep s now stepId =
        .error "At least one recipient must be added before completing the step") ∧
    (st.status = .ACTIVE → DealService.deponentsOf s stepId ≠ [] →
      DealService.recipientsOf s stepId ≠ [] →
      ∃ s', StepService.completeStep s now stepId =
        .ok (s', some { st with status := .COMPLETED, completedAt := some now })) ∧
    (∀ deal, DealService.findById s st.dealId = some deal →
      (st.status = .COMPLETED →
        DealService.completeStep s now st.dealId stepId = .error "Step is already completed") ∧
      (st.status = .CANCELLED →
        DealService.completeStep s now st.dealId stepId =
          .error "Cancelled steps cannot be completed") ∧
      (st.status ≠ .COMPLETED → st.status ≠ .CANCELLED →
        ∃ s', DealService.completeStep s now st.dealId stepId =
          .ok (s', some { st with status := .COMPLETED, completedAt := some now }))) := by
  have hsid : st.stepId = stepId := by simpa using List.find?_some hst
  have hupd : (DealService.updateStep s stepId
        (fun x => { x with status := StepStatus.COMPLETED, completedAt := some now })).steps.find?
          (fun x => x.stepId == stepId) =
      some { st with status := .COMPLETED, completedAt := some now } := by
    unfold DealService.updateStep
    simp only
    rw [find?_map_patch _ _ _ (fun a => by by_cases ha : a.stepId = stepId <;> simp [ha])]
    rw [hst]
    simp [hsid]
  refine ⟨?_, ?_, ?_, ?_, ?_⟩
  · intro hna
    unfold StepService.completeStep
    rw [hst]
    simp [hna]
  · intro ha hd
    unfold StepService.completeStep
    rw [hst]
    simp [ha, hd]
  · intro ha hd hr
    unfold StepService.completeStep
    rw [hst]
    simp [ha, List.isEmpty_iff, hd, hr]
  · intro ha hd hr
    refine ⟨DealService.updateStep s stepId
      (fun x => { x with status := StepStatus.COMPLETED, completedAt := some now }), ?_⟩
    unfold StepService.completeStep
    rw [hst]
    simp only [ha, ne_eq, not_true_eq_false, if_false, ite_false,
      List.isEmpty_iff, hd, hr]
    rw [hupd]
  · intro deal hdeal
    have hget : DealService.getStepById s st.dealId stepId = some st := by
      unfold DealService.getStepById
      exact find?_and_of_find? _ _ _ _ hst (by simp)
    have hget' : DealService.getStepById
        (DealService.updateStep s stepId
          (fun x => { x with status := StepStatus.COMPLETED, completedAt := some now }))
        st.dealId stepId =
        some { st with status := .COMPLETED, completedAt := some now } := by
      unfold DealService.getStepById DealService.updateStep
      simp only
      rw [find?_map_patch _ _ _
        (fun a => by by_cases ha : a.stepId = stepId <;> simp [ha])]
      rw [show s.steps.find? (fun x => x.stepId == stepId && x.dealId == st.dealId) = some st from
        find?_and_of_find? _ _ _ _ hst (by simp)]
      simp [hsid]
    refine ⟨?_, ?_, ?_⟩
    · intro hcompleted
      unfold DealService.completeStep
      rw [hdeal, hget]
      simp [hcompleted]
    · intro hcancelled
      unfold DealService.completeStep
      rw [hdeal, hget]
      simp [hcancelled]
    · intro hnc hnx
      refine ⟨DealService.updateStep s stepId
        (fun x => { x with status := StepStatus.COMPLETED, completedAt := some now }), ?_⟩
      unfold DealService.completeStep
      rw [hdeal, hget]
      simp only [hnc, hnx, if_neg, ite_false, if_false]
      rw [hget']

/-- Claim C8 (amended): every deponent/recipient mutation of DealService
(create-or-update and delete of deponents; create, update and delete of
recipients) fails with the modification error and returns no new state when
the owning Deal is not DRAFT; but `StepService.createOrUpdateDeponent`
performs no deal-status check at all — for any existing step whose provided
beneficiary exists it appends a deponent regardless of the owning deal's
status. -/
theorem C8_amended (s : DealState) (stepId : String) (st : Step) (deal : Deal)
    (hst : s.steps.find? (fun x => x.stepId == stepId) = some st)
    (hdeal : DealService.findById s st.dealId = some deal)
    (hnd : deal.status ≠ .DRAFT) :
    (∀ d, DealService.createOrUpdateDeponent s stepId d =
      .error "Only draft deals can be modified") ∧
    (∀ d, DealService.createRecipient s stepId d =
      .error "Only draft deals can be modified") ∧
    (∀ depId dep, s.deponents.find? (fun x => x.deponentId == depId) = some dep →
      dep.stepId = stepId →
      DealService.deleteDeponent s depId = .error "Only draft deals can be modified") ∧
    (∀ recId r, s.recipients.find? (fun x => x.recipientId == recId) = some r →
      r.stepId = stepId →
      (∀ d, DealService.updateRecipient s recId d = .error "Only draft deals can be modified") ∧
      DealService.deleteRecipient s recId = .error "Only draft deals can be modified") ∧
    (∀ d, (truthyStr d.beneficiaryId = true →
        s.beneficiaries.contains (d.beneficiaryId.getD "") = true) →
      ∃ dep, StepService.createOrUpdateDeponent s stepId d =
        .ok (dep, { s with deponents := s.deponents ++ [dep] })) := by
  refine ⟨?_, ?_, ?_, ?_, ?_⟩
  · intro d
    unfold DealService.createOrUpdateDeponent
    simp [hst, hdeal, hnd]
  · intro d
    unfold DealService.createRecipient
    simp [hst, hdeal, hnd]
  · intro depId dep hdep hdsid
    unfold DealService.deleteDeponent
    simp [hdep, hdsid, hst, hdeal, hnd]
  · intro recId r hrec hrsid
    constructor
    · intro d
      unfold DealService.updateRecipient
      simp [hrec, hrsid, hst, hdeal, hnd]
    · unfold DealService.deleteRecipient
      simp [hrec, hrsid, hst, hdeal, hnd]
  · intro d hben
    refine ⟨{ deponentId := "dep-" ++ toString s.deponents.length, stepId := stepId
              beneficiaryId := d.beneficiaryId, amount := d.amount.getD 0 }, ?_⟩
    unfold StepService.createOrUpdateDeponent
    rw [hst]
    by_cases ht : truthyStr d.beneficiaryId = true
    · have hmem : d.beneficiaryId.getD "" ∈ s.beneficiaries := by simpa using hben ht
      simp [ht, hmem]
    · simp [ht]

/-- The falsy-guarded non-positivity check fires exactly for a provided
strictly negative value: `none` and `some 0` both escape it. -/
theorem negGuard_decomp (o : Option Int) :
    (truthyInt o = true ∧ o.getD 0 ≤ 0) ↔ ∃ a, o = some a ∧ a < 0 := by
  cases o with
  | none => simp [truthyInt]
  | some a =>
      simp only [truthyInt, Option.getD_some, bne_iff_ne, ne_eq, Option.some.injEq]
      constructor
      · rintro ⟨h0, hle⟩
        exact ⟨a, rfl, lt_of_le_of_ne hle h0⟩
      · rintro ⟨b, hb, hlt⟩
        subst hb
        exact ⟨by omega, le_of_lt hlt⟩

/-- The falsy-guarded currency-length check fires exactly for a provided
nonempty currency of length other than 3: `none` and `some ""` escape it. -/
theorem curGuard_decomp (o : Option String) :
    (truthyStr o = true ∧ (o.getD "").length ≠ 3) ↔
      ∃ c, o = some c ∧ c ≠ "" ∧ c.length ≠ 3 := by
  cases o with
  | none => simp [truthyStr]
  | some c => simp [truthyStr]

/-- Claim C9 (amended): `createTransfer` rejects `from == to` (two absent ids
also compare equal), a provided nonzero negative amount, a provided nonempty
currency whose length is not 3, and provided nonzero negative beneficiary ids;
an amount of 0 and an empty currency escape the falsy presence guards and are
accepted.  When validation passes and every provided party exists, the
transfer is created with status PENDING, appended to the repository. -/
theorem C9_amended (s : TransferState) (d : TransferService.TransferData) :
    (TransferService.validateTransferData d = .ok () ↔
      (∀ a, d.amount = some a → 0 ≤ a) ∧
      (∀ c, d.currency = some c → c ≠ "" → c.length = 3) ∧
      (∀ f, d.fromBeneficiaryId = some f → 0 ≤ f) ∧
      (∀ g, d.toBeneficiaryId = some g → 0 ≤ g) ∧
      d.fromBeneficiaryId ≠ d.toBeneficiaryId) ∧
    ((∃ r, TransferService.createTransfer s d = .ok r) ↔
      TransferService.validateTransferData d = .ok () ∧
      (∀ f, d.fromBeneficiaryId = some f → f ≠ 0 →
        s.ledger.beneficiaries.contains f = true) ∧
      (∀ g, d.toBeneficiaryId = some g → g ≠ 0 →
        s.ledger.beneficiaries.contains g = true)) ∧
    (∀ t s2, TransferService.createTransfer s d = .ok (t, s2) →
      t.status = .PENDING ∧ t.amount = d.amount.getD 0 ∧
      s2.transfers = s.transfers ++ [t]) := by
  have hval : TransferService.validateTransferData d = .ok () ↔
      (∀ a, d.amount = some a → 0 ≤ a) ∧
      (∀ c, d.currency = some c → c ≠ "" → c.length = 3) ∧
      (∀ f, d.fromBeneficiaryId = some f → 0 ≤ f) ∧
      (∀ g, d.toBeneficiaryId = some g → 0 ≤ g) ∧
      d.fromBeneficiaryId ≠ d.toBeneficiaryId := by
    unfold TransferService.validateTransferData
    split_ifs with h1 h2 h3 h4 h5
    · obtain ⟨a, ha, hlt⟩ := (negGuard_decomp _).mp h1
      simp only [reduceCtorEq, false_iff, not_and]
      intro hA
      have := hA a ha
      omega
    · obtain ⟨c, hc, hne, hlen⟩ := (curGuard_decomp _).mp h2
      simp only [reduceCtorEq, false_iff, not_and]
      intro _ hC
      exact absurd (hC c hc hne) hlen
    · obtain ⟨f, hf, hlt⟩ := (negGuard_decomp _).mp h3
      simp only [reduceCtorEq, false_iff, not_and]
      intro _ _ hF
      have := hF f hf
      omega
    · obtain ⟨g, hg, hlt⟩ := (negGuard_decomp _).mp h4
      simp only [reduceCtorEq, false_iff, not_and]
      intro _ _ _ hG
      have := hG g hg
      omega
    · simp only [reduceCtorEq, false_iff, not_and]
      intro _ _ _ _
      exact fun hne => absurd h5 hne
    · simp only [true_iff]
      refine ⟨?_, ?_, ?_, ?_, h5⟩
      · intro a ha
        by_contra hneg
        exact h1 ((negGuard_decomp _).mpr ⟨a, ha, by omega⟩)
      · intro c hc hne
        by_contra hlen
        exact h2 ((curGuard_decomp _).mpr ⟨c, hc, hne, hlen⟩)
      · intro f hf
        by_contra hneg
        exact h3 ((negGuard_decomp _).mpr ⟨f, hf, by omega⟩)
      · intro g hg
        by_contra hneg
        exact h4 ((negGuard_decomp _).mpr ⟨g, hg, by omega⟩)
  refine ⟨hval, ?_, ?_⟩
  · constructor
    · rintro ⟨r, hr⟩
      unfold TransferService.createTransfer at hr
      cases hv : TransferService.validateTransferData d with
      | error e => rw [hv] at hr; simp at hr
      | ok u =>
        cases u
        rw [hv] at hr
        split_ifs at hr with hc1 hc2 hc3
        refine ⟨?_, ?_, ?_⟩
        · rfl
        · intro f hf hf0
          by_contra hnc
          exact hc1 ⟨by simp [truthyInt, hf, hf0], by simpa [hf] using hnc⟩
        · intro g hg hg0
          by_contra hnc
          exact hc2 ⟨by simp [truthyInt, hg, hg0], by simpa [hg] using hnc⟩
    · rintro ⟨hok, hfrom, hto⟩
      have hc1 : ¬ (truthyInt d.fromBeneficiaryId = true ∧
          ¬ s.ledger.beneficiaries.contains (d.fromBeneficiaryId.getD 0) = true) := by
        rintro ⟨ht, hnc⟩
        cases hf : d.fromBeneficiaryId with
        | none => rw [hf] at ht; simp [truthyInt] at ht
        | some f =>
            rw [hf] at ht hnc
            simp only [truthyInt, bne_iff_ne, ne_eq] at ht
            exact hnc (by simpa using hfrom f hf (by simpa using ht))
      have hc2 : ¬ (truthyInt d.toBeneficiaryId = true ∧
          ¬ s.ledger.beneficiaries.contains (d.toBeneficiaryId.getD 0) = true) := by
        rintro ⟨ht, hnc⟩
        cases hg : d.toBeneficiaryId with
        | none => rw [hg] at ht; simp [truthyInt] at ht
        | some g =>
            rw [hg] at ht hnc
            simp only [truthyInt, bne_iff_ne, ne_eq] at ht
            exact hnc (by simpa using hto g hg (by simpa using ht))
      have hne : d.fromBeneficiaryId ≠ d.toBeneficiaryId := (hval.mp hok).2.2.2.2
      cases hres : TransferService.createTransfer s d with
      | error e =>
          exfalso
          unfold TransferService.createTransfer at hres
          rw [hok] at hres
          rw [if_neg hc1, if_neg hc2, if_neg hne] at hres
          simp at hres
      | ok r => exact ⟨r, rfl⟩
  · intro t s2 hr
    unfold TransferService.createTransfer at hr
    cases hv : TransferService.validateTransferData d with
    | error e => rw [hv] at hr; simp at hr
    | ok u =>
      cases u
      rw [hv] at hr
      split_ifs at hr with hc1 hc2 hc3
      simp only [Except.ok.injEq, Prod.mk.injEq] at hr
      obtain ⟨ht, hs2⟩ := hr
      subst ht
      subst hs2
      exact ⟨rfl, rfl, rfl⟩

/-- Witness for C5: at a concrete ledger (balance 100 with an ACTIVE hold of
40) a withdrawal of 150 fails with the insufficient-funds error. -/
theorem C5_withdrawFunds_witness :
    BalanceService.withdrawFunds c5State 1 150 "RUB" = .error "Insufficient funds" :=
  (C5_withdrawFunds c5State 1 150 "RUB" ⟨0, 1, 100, "RUB"⟩ rfl).1 (by decide)

/-- Witness for C6: the spec's third scenario — balance 100, hold request of
150 fails with the insufficient-funds error. -/
theorem C6_createHold_witness :
    BalanceService.createHold c5State 1 150 "RUB" "escrow" 1 =
      .error "Insufficient funds for hold" :=
  (C6_createHold c5State 1 150 "RUB" "escrow" 1 ⟨0, 1, 100, "RUB"⟩ rfl).1 (by decide)

/-- Witness for C10: cancelling an already-CANCELLED transfer succeeds again
and refreshes the cancellation timestamp. -/
theorem C10_cancelTransfer_witness :
    ∃ s', TransferService.cancelTransfer c10State 9 8 = .ok s' ∧
      TransferService.findById s' 8 =
        some { exTransferCancelled with status := .CANCELLED, cancelledAt := some 9 } :=
  (C10_cancelTransfer c10State 9 8 exTransferCancelled rfl).2 (by decide)

/-- Witness for C1: the spec's fifth scenario — sender balance 50, transfer
amount 100: the call errors with insufficient funds, no balance changes, and
the transfer is FAILED with the failure reason recorded. -/
theorem C1_executeTransfer_witness :
    (TransferService.executeTransfer c1State 4 7).1 =
      .error "Insufficient funds in sender account" ∧
    (TransferService.executeTransfer c1State 4 7).2.ledger = c1State.ledger ∧
    TransferService.findById (TransferService.executeTransfer c1State 4 7).2 7 =
      some { exTransfer with
              status := .FAILED
              failedAt := some 4
              failureReason := some "Insufficient funds in sender account" } :=
  (C1_executeTransfer c1State 4 7 exTransfer rfl).2.2 rfl 1 rfl (by decide)
    ⟨0, 1, 50, "RUB"⟩ rfl (by decide)

/-- Witness for C2: the spec's second scenario — deposit 800000, disbursement
900000 — yields an INSUFFICIENT_DEPOSITS reason with the exact totals, and the
deal is invalid. -/
theorem C2_isDealValid_witness :
    DealService.insufficientReason "s1" 800000 900000 ∈
      (DealService.isDealValid c2State "d1").2 ∧
    (DealService.isDealValid c2State "d1").1 = false :=
  ⟨((((C2_isDealValid c2State "d1").2.2 exDealAccepted rfl).2.1 exStepActive
      (by decide)).2.2 800000 900000).mpr ⟨by decide, by decide, by decide⟩,
   by decide⟩

/-- Counterexample to C3 as stated: the deal's only step is ACTIVE (not
COMPLETED), yet `completeDeal` succeeds and sets the deal COMPLETED instead of
failing with IncompleteSteps. -/
theorem C3_counterexample :
    DealService.stepsOf c3State "d1" = [exStepActive] ∧
    exStepActive.status = StepStatus.ACTIVE ∧
    DealService.completeDeal c3State "d1" =
      .ok (DealService.updateDealStatus c3State "d1" .COMPLETED,
        some { exDealAccepted with status := .COMPLETED }) :=
  ⟨rfl, rfl, rfl⟩

/-- Witness for the amended C3: the unconditional completion on the live
service and the guarded failure on the legacy revision, at the same store. -/
theorem C3_amended_witness :
    (∃ s', DealService.completeDeal c3State "d1" = .ok (s', DealService.findById s' "d1") ∧
      DealService.findById s' "d1" = some { exDealAccepted with status := .COMPLETED }) ∧
    LegacyDealService.completeDeal c3State "d1" =
      .error "All steps must be completed before completing the deal" :=
  ⟨(C3_amended c3State "d1" exDealAccepted rfl).1,
   (C3_amended c3State "d1" exDealAccepted rfl).2.1 (by decide)⟩

/-- Counterexample to C4 as stated: a NEW step with zero deponents and zero
recipients is completed by `DealService.completeStep` instead of the call
failing. -/
theorem C4_counterexample :
    exStepNew.status = StepStatus.NEW ∧
    DealService.deponentsOf c4State "s1" = [] ∧
    DealService.recipientsOf c4State "s1" = [] ∧
    DealService.completeStep c4State 5 "d1" "s1" =
      .ok (DealService.updateStep c4State "s1"
            (fun x => { x with status := .COMPLETED, completedAt := some 5 }),
        some { exStepNew with status := .COMPLETED, completedAt := some 5 }) :=
  ⟨rfl, rfl, rfl, rfl⟩

/-- Witness for the amended C4: at the same store the StepService variant
refuses the non-ACTIVE step while the DealService variant completes it. -/
theorem C4_amended_witness :
    StepService.completeStep c4State 5 "s1" = .error "Only active steps can be completed" ∧
    (∃ s', DealService.completeStep c4State 5 "d1" "s1" =
      .ok (s', some { exStepNew with status := .COMPLETED, completedAt := some 5 })) :=
  ⟨(C4_amended c4State 5 "s1" exStepNew rfl).1 (by decide),
   ((C4_amended c4State 5 "s1" exStepNew rfl).2.2.2.2 exDealAccepted rfl).2.2
     (by decide) (by decide)⟩

/-- Counterexample to C7 as stated: `confirmDeal` moves a COMPLETED deal to
CONFIRMED, so a lifecycle operation does change a COMPLETED deal's status. -/
theorem C7_counterexample :
    exDealCompleted.status = DealStatus.COMPLETED ∧
    DealService.confirmDeal c7State "d2" =
      .ok (DealService.updateDealStatus c7State "d2" .CONFIRMED,
        some { exDealCompleted with status := .CONFIRMED }) :=
  ⟨rfl, rfl⟩

/-- Witness for the amended C7: on a COMPLETED deal, `cancelDeal` fails while
`confirmDeal` succeeds and rewrites the status to CONFIRMED. -/
theorem C7_amended_witness :
    DealService.cancelDeal c7State "d2" = .error "Completed deals cannot be cancelled" ∧
    (∃ s', DealService.confirmDeal c7State "d2" = .ok (s', DealService.findById s' "d2") ∧
      DealService.findById s' "d2" = some { exDealCompleted with status := .CONFIRMED }) :=
  ⟨(C7_amended c7State "d2" exDealCompleted rfl rfl).2.1,
   (C7_amended c7State "d2" exDealCompleted rfl rfl).2.2.2.2.1⟩

/-- Counterexample to C8 as stated: the owning deal is ACCEPTED (not DRAFT),
yet `StepService.createOrUpdateDeponent` succeeds and inserts a deponent. -/
theorem C8_counterexample :
    exDealAccepted.status = DealStatus.ACCEPTED ∧
    StepService.createOrUpdateDeponent c8State "s1" ⟨some "A", some 5⟩ =
      .ok (⟨"dep-0", "s1", some "A", 5⟩,
        { c8State with deponents := [⟨"dep-0", "s1", some "A", 5⟩] }) :=
  ⟨rfl, rfl⟩

/-- Witness for the amended C8: on the ACCEPTED deal the DealService mutation
fails with the modification error while the StepService one succeeds. -/
theorem C8_amended_witness :
    DealService.createOrUpdateDeponent c8State "s1" ⟨some "A", some 5⟩ =
      .error "Only draft deals can be modified" ∧
    (∃ dep, StepService.createOrUpdateDeponent c8State "s1" ⟨some "A", some 5⟩ =
      .ok (dep, { c8State with deponents := c8State.deponents ++ [dep] })) :=
  ⟨(C8_amended c8State "s1" exStepActive exDealAccepted rfl rfl (by decide)).1 ⟨some "A", some 5⟩,
   (C8_amended c8State "s1" exStepActive exDealAccepted rfl rfl (by decide)).2.2.2.2
     ⟨some "A", some 5⟩ (by decide)⟩

/-- Counterexample to C9 as stated: a creation request with amount 0 (a
non-positive amount the claim says is rejected) is accepted — the transfer is
created with status PENDING. -/
theorem C9_counterexample :
    c9Data.amount = some 0 ∧
    TransferService.createTransfer c9State c9Data = .ok (c9Transfer, c9After) ∧
    c9Transfer.status = PaymentStatus.PENDING :=
  ⟨rfl, rfl, rfl⟩

/-- Witness for the amended C9: the successful creation at `c9Data` carries
status PENDING, amount `getD 0` and appends the record. -/
theorem C9_amended_witness :
    c9Transfer.status = PaymentStatus.PENDING ∧
    c9Transfer.amount = c9Data.amount.getD 0 ∧
    c9After.transfers = c9State.transfers ++ [c9Transfer] :=
  (C9_amended c9State c9Data).2.2 c9Transfer c9After rfl

end Tmoq
